import Mathlib

/-!
Verification of `DOMRefCell` from `src/components/script/dom/bindings/cell.rs`.

The cell wraps a `std::cell::RefCell<T>` (the era of the source where
`RefCell::try_borrow` returns `Option<Ref>` and `try_borrow_mut` returns
`Option<RefMut>`).  We embed the borrow tracker of the underlying `RefCell`
as an explicit state machine (`BorrowState`) and the cell operations as pure
functions on a record of the contained value and the tracker state.
-/

/-- The borrow-tracker state of the underlying `RefCell`:
free, shared-borrowed with a live count, or exclusively borrowed.
Only `free`, `shared (n+1)` and `exclusive` are reachable. -/
inductive BorrowState where
  | free
  | shared (n : Nat)
  | exclusive
deriving DecidableEq, Repr

/-- `RefCell::try_borrow` at the tracker level: succeeds (incrementing the
shared count) unless the cell is exclusively borrowed. -/
def tryBorrowState : BorrowState → Option BorrowState
  | BorrowState.free => some (BorrowState.shared 1)
  | BorrowState.shared n => some (BorrowState.shared (n + 1))
  | BorrowState.exclusive => none

/-- `RefCell::try_borrow_mut` at the tracker level: succeeds only from the
free state, moving to exclusive. -/
def tryBorrowMutState : BorrowState → Option BorrowState
  | BorrowState.free => some BorrowState.exclusive
  | BorrowState.shared _ => none
  | BorrowState.exclusive => none

/-- Release of one shared guard (`Ref` drop): `Shared(1) → Free`,
`Shared(n+1) → Shared(n)`; no effect on states with no shared guard. -/
def releaseSharedState : BorrowState → BorrowState
  | BorrowState.shared 1 => BorrowState.free
  | BorrowState.shared (n + 2) => BorrowState.shared (n + 1)
  | s => s

/-- Release of the exclusive guard (`RefMut` drop): `Exclusive → Free`. -/
def releaseExclusiveState : BorrowState → BorrowState
  | BorrowState.exclusive => BorrowState.free
  | s => s

/-- Number of live shared guards recorded in the state. -/
def sharedCount : BorrowState → Nat
  | BorrowState.shared n => n
  | _ => 0

/-- Number of live exclusive guards recorded in the state. -/
def exclusiveCount : BorrowState → Nat
  | BorrowState.exclusive => 1
  | _ => 0

/-- Well-formed tracker states: `shared 0` is never reachable, since entering
`shared` starts at count 1 and `Shared(1) --release--> Free`. -/
def BorrowState.wf : BorrowState → Bool
  | BorrowState.shared 0 => false
  | _ => true

/-- The cell: the contained value together with the borrow-tracker state of
its inner `RefCell`. -/
structure DOMRefCell (α : Type) where
  value : α
  state : BorrowState
deriving DecidableEq, Repr

/-- `DOMRefCell::new`: wraps the value in a fresh (free) `RefCell`. -/
def DOMRefCell.new {α : Type} (v : α) : DOMRefCell α :=
  { value := v, state := BorrowState.free }

/-- `DOMRefCell::is_mutably_borrowed`, exactly as the source computes it:
`self.value.try_borrow().is_some()`.  (The temporary `Ref` produced by
`try_borrow` is dropped within the expression, so the tracker state is
unchanged by the call; the function is a pure query of the state.) -/
def DOMRefCell.is_mutably_borrowed {α : Type} (c : DOMRefCell α) : Bool :=
  (tryBorrowState c.state).isSome

/-- `DOMRefCell::try_borrow`: delegates to the inner `RefCell::try_borrow`.
A successful result is the shared guard (modelled by the value it can read)
together with the cell in its post-transition state. -/
def DOMRefCell.try_borrow {α : Type} (c : DOMRefCell α) :
    Option (α × DOMRefCell α) :=
  match tryBorrowState c.state with
  | some s => some (c.value, { value := c.value, state := s })
  | none => none

/-- `DOMRefCell::try_borrow_mut`: delegates to `RefCell::try_borrow_mut`. -/
def DOMRefCell.try_borrow_mut {α : Type} (c : DOMRefCell α) :
    Option (α × DOMRefCell α) :=
  match tryBorrowMutState c.state with
  | some s => some (c.value, { value := c.value, state := s })
  | none => none

/-- The fail-fast outcome of `borrow`/`borrow_mut`: the source panics with
a borrow-conflict message. -/
inductive BorrowError where
  | borrowConflict
deriving DecidableEq, Repr

/-- `DOMRefCell::borrow`: `match self.try_borrow() { Some(ptr) => ptr,
None => panic!(..) }`. -/
def DOMRefCell.borrow {α : Type} (c : DOMRefCell α) :
    Except BorrowError (α × DOMRefCell α) :=
  match c.try_borrow with
  | some p => Except.ok p
  | none => Except.error BorrowError.borrowConflict

/-- `DOMRefCell::borrow_mut`: `match self.try_borrow_mut() { Some(ptr) => ptr,
None => panic!(..) }`. -/
def DOMRefCell.borrow_mut {α : Type} (c : DOMRefCell α) :
    Except BorrowError (α × DOMRefCell α) :=
  match c.try_borrow_mut with
  | some p => Except.ok p
  | none => Except.error BorrowError.borrowConflict

/-- Drop of a shared guard (`Ref`) at the cell level. -/
def DOMRefCell.releaseShared {α : Type} (c : DOMRefCell α) : DOMRefCell α :=
  { c with state := releaseSharedState c.state }

/-- Drop of the exclusive guard (`RefMut`) at the cell level. -/
def DOMRefCell.releaseExclusive {α : Type} (c : DOMRefCell α) : DOMRefCell α :=
  { c with state := releaseExclusiveState c.state }

/-- Assignment through a live `RefMut` guard (std `DerefMut`): replaces the
contained value; the tracker state (exclusive while the guard lives) is
untouched by the write itself. -/
def DOMRefCell.write_via_guard {α : Type} (c : DOMRefCell α) (v : α) :
    DOMRefCell α :=
  { c with value := v }

/-- `DOMRefCell::borrow_for_layout`: reads straight through
`as_unsafe_cell().get()`, never touching the borrow flag; the result is the
contained value and the (unchanged) cell. -/
def DOMRefCell.borrow_for_layout {α : Type} (c : DOMRefCell α) :
    α × DOMRefCell α :=
  (c.value, c)

/-- `DOMRefCell::borrow_for_gc_trace`: reads straight through
`as_unsafe_cell().get()`, never touching the borrow flag. -/
def DOMRefCell.borrow_for_gc_trace {α : Type} (c : DOMRefCell α) :
    α × DOMRefCell α :=
  (c.value, c)

/-- `DOMRefCell::borrow_for_script_deallocation`: obtains a mutable pointer
through `as_unsafe_cell().get()`, never touching the borrow flag.  We model
the access it grants by the value read; the tracker state is unchanged. -/
def DOMRefCell.borrow_for_script_deallocation {α : Type} (c : DOMRefCell α) :
    α × DOMRefCell α :=
  (c.value, c)

/-- Modelled from the spec: the ambient task-state flags of
`util::task_state` (the module is part of the repository but not among the
supplied sources).  The spec describes a thread-role query returning the
calling context's role and, in debug builds, whether a collection pause is
active; the flags used by `cell.rs` are `SCRIPT`, `LAYOUT` and `IN_GC`. -/
structure TaskState where
  script : Bool
  layout : Bool
  in_gc : Bool
deriving DecidableEq, Repr

/-- Modelled from the spec: the `SCRIPT` flag of `util::task_state`. -/
def SCRIPT : TaskState :=
  { script := true, layout := false, in_gc := false }

/-- Modelled from the spec: the `LAYOUT` flag of `util::task_state`. -/
def LAYOUT : TaskState :=
  { script := false, layout := true, in_gc := false }

/-- Modelled from the spec: the `IN_GC` flag of `util::task_state`. -/
def IN_GC : TaskState :=
  { script := false, layout := false, in_gc := true }

/-- Modelled from the spec: bitwise union of flag sets (the `|` operator of
the bitflags type used by `task_state`). -/
def TaskState.orFlags (a b : TaskState) : TaskState :=
  { script := a.script || b.script
    layout := a.layout || b.layout
    in_gc := a.in_gc || b.in_gc }

/-- Modelled from the spec: `contains` of the bitflags type — the receiver
holds every flag of the requested set. -/
def TaskState.contains (t req : TaskState) : Bool :=
  (!req.script || t.script) && (!req.layout || t.layout) &&
    (!req.in_gc || t.in_gc)

/-- Modelled from the spec: `task_state::get().is_script()`. -/
def TaskState.is_script (t : TaskState) : Bool :=
  t.contains SCRIPT

/-- Modelled from the spec: `task_state::get().is_layout()`. -/
def TaskState.is_layout (t : TaskState) : Bool :=
  t.contains LAYOUT

/-- The debug-time precondition of `borrow_for_layout`:
`debug_assert!(task_state::get().is_layout())`. -/
def layoutAssert (ts : TaskState) : Bool :=
  ts.is_layout

/-- The debug-time precondition of `borrow_for_gc_trace`:
`debug_assert!(task_state::get().contains(SCRIPT | IN_GC))`. -/
def gcTraceAssert (ts : TaskState) : Bool :=
  ts.contains (TaskState.orFlags SCRIPT IN_GC)

/-- The debug-time precondition of `borrow_for_script_deallocation`:
`debug_assert!(task_state::get().contains(SCRIPT))`. -/
def scriptDeallocAssert (ts : TaskState) : Bool :=
  ts.contains SCRIPT

/-- The `JSTraceable` impl for `DOMRefCell<T>`:
`(*self).borrow().trace(trc)`.  The trace capability of `T` is an arbitrary
function `tr` of the contained value; a borrow conflict propagates as the
fail-fast error of `borrow`. -/
def DOMRefCell.trace {α β : Type} (tr : α → β) (c : DOMRefCell α) :
    Except BorrowError β :=
  match c.borrow with
  | Except.ok p => Except.ok (tr p.1)
  | Except.error e => Except.error e

/-- Client operations on one cell whose interleavings the aliasing claims
quantify over. -/
inductive Op where
  | opBorrow
  | opBorrowMut
  | opReleaseShared
  | opReleaseExclusive
deriving DecidableEq, Repr

/-- Tracker-only step: a failed (`None`) borrow leaves the state unchanged,
releases act as the corresponding guard drop. -/
def stepState (s : BorrowState) : Op → BorrowState
  | Op.opBorrow => (tryBorrowState s).getD s
  | Op.opBorrowMut => (tryBorrowMutState s).getD s
  | Op.opReleaseShared => releaseSharedState s
  | Op.opReleaseExclusive => releaseExclusiveState s

/-- Execution state that additionally counts the guards a client actually
holds: each successful borrow hands out one guard, each release consumes
one (a release with no live guard of that kind is a no-op, so a guard is
dropped at most once). -/
structure RunState where
  st : BorrowState
  liveShared : Nat
  liveExclusive : Nat
deriving DecidableEq, Repr

/-- One client operation on the cell, tracking live guards. -/
def runStep (t : RunState) : Op → RunState
  | Op.opBorrow =>
    match tryBorrowState t.st with
    | some s => { st := s, liveShared := t.liveShared + 1,
                  liveExclusive := t.liveExclusive }
    | none => t
  | Op.opBorrowMut =>
    match tryBorrowMutState t.st with
    | some s => { st := s, liveShared := t.liveShared,
                  liveExclusive := t.liveExclusive + 1 }
    | none => t
  | Op.opReleaseShared =>
    if 0 < t.liveShared then
      { st := releaseSharedState t.st, liveShared := t.liveShared - 1,
        liveExclusive := t.liveExclusive }
    else t
  | Op.opReleaseExclusive =>
    if 0 < t.liveExclusive then
      { st := releaseExclusiveState t.st, liveShared := t.liveShared,
        liveExclusive := t.liveExclusive - 1 }
    else t

/-- Run a sequence of client operations on a fresh cell. -/
def runOps (ops : List Op) : RunState :=
  ops.foldl runStep { st := BorrowState.free, liveShared := 0,
                      liveExclusive := 0 }

/-- The guard counters agree with the tracker state. -/
def counted (t : RunState) : Prop :=
  t.liveShared = sharedCount t.st ∧ t.liveExclusive = exclusiveCount t.st

/-! ## Invariant lemmas -/

/-- One step preserves the guard-count correspondence. -/
lemma counted_step (t : RunState) (op : Op) (h : counted t) :
    counted (runStep t op) := by
  obtain ⟨s, ls, le⟩ := t
  obtain ⟨h1, h2⟩ := h
  simp only at h1 h2
  subst h1
  subst h2
  cases op with
  | opBorrow =>
    cases s <;>
      simp [runStep, tryBorrowState, counted, sharedCount, exclusiveCount]
  | opBorrowMut =>
    cases s <;>
      simp [runStep, tryBorrowMutState, counted, sharedCount, exclusiveCount]
  | opReleaseShared =>
    cases s with
    | free => simp [runStep, counted, sharedCount, exclusiveCount]
    | exclusive => simp [runStep, counted, sharedCount, exclusiveCount]
    | shared n =>
      rcases n with _ | _ | m <;>
        simp [runStep, releaseSharedState, counted, sharedCount,
          exclusiveCount]
  | opReleaseExclusive =>
    cases s <;>
      simp [runStep, releaseExclusiveState, counted, sharedCount,
        exclusiveCount]

/-- The correspondence holds along any run. -/
lemma counted_foldl (ops : List Op) :
    ∀ t : RunState, counted t → counted (ops.foldl runStep t) := by
  induction ops with
  | nil => intro t h; exact h
  | cons op rest ih => intro t h; exact ih (runStep t op) (counted_step t op h)

/-- The correspondence holds for every run from a fresh cell. -/
lemma counted_runOps (ops : List Op) : counted (runOps ops) :=
  counted_foldl ops _ ⟨rfl, rfl⟩

/-! ## Claim theorems -/

/-- C1 (code evaluated at the failing input): on a freshly created cell —
state `Free`, no guard of any kind live — `is_mutably_borrowed()` returns
`true`, although the state is not `Exclusive` and no exclusive guard is
live.  The source computes `self.value.try_borrow().is_some()`, which is
`true` exactly when the state is NOT exclusive, the inverse of what its own
doc comment and the spec state. -/
theorem is_mutably_borrowed_true_on_free_cell :
    (DOMRefCell.new (5 : Nat)).is_mutably_borrowed = true ∧
    (DOMRefCell.new (5 : Nat)).state = BorrowState.free ∧
    exclusiveCount (DOMRefCell.new (5 : Nat)).state = 0 ∧
    (DOMRefCell.mk (5 : Nat) BorrowState.exclusive).is_mutably_borrowed =
      false := by
  decide

/-- C2: along every interleaving of `borrow` / `borrow_mut` / guard releases
starting from a fresh cell, at most one exclusive guard is live, and never a
shared and an exclusive guard simultaneously; moreover the tracker never
steps into `Exclusive` from any state other than `Free`. -/
theorem aliasing_discipline :
    (∀ ops : List Op,
      (runOps ops).liveExclusive ≤ 1 ∧
      ((runOps ops).liveExclusive = 0 ∨ (runOps ops).liveShared = 0)) ∧
    (∀ (s : BorrowState) (op : Op),
      stepState s op = BorrowState.exclusive →
      s = BorrowState.free ∨ s = BorrowState.exclusive) := by
  constructor
  · intro ops
    obtain ⟨h1, h2⟩ := counted_runOps ops
    constructor
    · rw [h2]
      cases (runOps ops).st <;> simp [exclusiveCount]
    · rw [h1, h2]
      cases (runOps ops).st <;> simp [sharedCount, exclusiveCount]
  · intro s op h
    cases s with
    | free => exact Or.inl rfl
    | exclusive => exact Or.inr rfl
    | shared n =>
      exfalso
      cases op with
      | opBorrow => simp [stepState, tryBorrowState] at h
      | opBorrowMut => simp [stepState, tryBorrowMutState] at h
      | opReleaseShared =>
        rcases n with _ | _ | m <;>
          simp [stepState, releaseSharedState] at h
      | opReleaseExclusive => simp [stepState, releaseExclusiveState] at h

/-- Witness for C2: a concrete run of two shared borrows satisfies the
invariant, and the one step into `Exclusive` departs from `Free`. -/
theorem aliasing_discipline_witness :
    ((runOps [Op.opBorrow, Op.opBorrow]).liveExclusive ≤ 1 ∧
      ((runOps [Op.opBorrow, Op.opBorrow]).liveExclusive = 0 ∨
        (runOps [Op.opBorrow, Op.opBorrow]).liveShared = 0)) ∧
    (BorrowState.free = BorrowState.free ∨
      BorrowState.free = BorrowState.exclusive) :=
  ⟨aliasing_discipline.1 [Op.opBorrow, Op.opBorrow],
    aliasing_discipline.2 BorrowState.free Op.opBorrowMut (by decide)⟩

/-- C3: on any well-formed state, `try_borrow` is empty iff an exclusive
guard is live, `try_borrow_mut` is empty iff any guard (shared or exclusive)
is live, and in the non-conflicting cases each returns the guard and
performs the state transition of the spec. -/
theorem try_borrow_characterization {α : Type} (c : DOMRefCell α)
    (hwf : c.state.wf = true) :
    (c.try_borrow.isNone = true ↔ exclusiveCount c.state = 1) ∧
    (c.try_borrow_mut.isNone = true ↔
      0 < sharedCount c.state + exclusiveCount c.state) ∧
    (c.state = BorrowState.free →
      c.try_borrow =
        some (c.value, { value := c.value, state := BorrowState.shared 1 })) ∧
    (∀ n : Nat, c.state = BorrowState.shared (n + 1) →
      c.try_borrow =
        some (c.value,
          { value := c.value, state := BorrowState.shared (n + 2) })) ∧
    (c.state = BorrowState.free →
      c.try_borrow_mut =
        some (c.value, { value := c.value, state := BorrowState.exclusive })) := by
  obtain ⟨v, s⟩ := c
  cases s with
  | free =>
    simp [DOMRefCell.try_borrow, DOMRefCell.try_borrow_mut, tryBorrowState,
      tryBorrowMutState, sharedCount, exclusiveCount]
  | exclusive =>
    simp [DOMRefCell.try_borrow, DOMRefCell.try_borrow_mut, tryBorrowState,
      tryBorrowMutState, sharedCount, exclusiveCount]
  | shared n =>
    rcases n with _ | m
    · simp [BorrowState.wf] at hwf
    · simp only [DOMRefCell.try_borrow, DOMRefCell.try_borrow_mut,
        tryBorrowState, tryBorrowMutState, sharedCount, exclusiveCount]
      refine ⟨by simp, by simp, by simp, ?_, by simp⟩
      intro k hk
      obtain rfl : m = k := by injection hk with h2; omega
      rfl

/-- Witness for C3: the characterization applied to a concrete free cell. -/
theorem try_borrow_characterization_witness :
    ((DOMRefCell.mk (0 : Nat) BorrowState.free).try_borrow.isNone = true ↔
      exclusiveCount (DOMRefCell.mk (0 : Nat) BorrowState.free).state = 1) :=
  (try_borrow_characterization (DOMRefCell.mk (0 : Nat) BorrowState.free)
    (by decide)).1

/-- C4: `borrow` fails fast with the borrow-conflict error exactly in the
states where `try_borrow` is empty, and otherwise returns exactly the guard
`try_borrow` returns; likewise for `borrow_mut` and `try_borrow_mut`. -/
theorem borrow_fail_fast_iff_try_none {α : Type} (c : DOMRefCell α) :
    (c.borrow = Except.error BorrowError.borrowConflict ↔
      c.try_borrow = none) ∧
    (∀ p : α × DOMRefCell α, c.borrow = Except.ok p ↔ c.try_borrow = some p) ∧
    (c.borrow_mut = Except.error BorrowError.borrowConflict ↔
      c.try_borrow_mut = none) ∧
    (∀ p : α × DOMRefCell α,
      c.borrow_mut = Except.ok p ↔ c.try_borrow_mut = some p) := by
  refine ⟨?_, ?_, ?_, ?_⟩
  · cases h : c.try_borrow <;> simp [DOMRefCell.borrow, h]
  · intro p
    cases h : c.try_borrow <;> simp [DOMRefCell.borrow, h]
  · cases h : c.try_borrow_mut <;> simp [DOMRefCell.borrow_mut, h]
  · intro p
    cases h : c.try_borrow_mut <;> simp [DOMRefCell.borrow_mut, h]

/-- Witness for C4: on an exclusively borrowed cell, `borrow` aborts exactly
because `try_borrow` is empty there. -/
theorem borrow_fail_fast_iff_try_none_witness :
    ((DOMRefCell.mk (0 : Nat) BorrowState.exclusive).borrow =
        Except.error BorrowError.borrowConflict ↔
      (DOMRefCell.mk (0 : Nat) BorrowState.exclusive).try_borrow = none) :=
  (borrow_fail_fast_iff_try_none
    (DOMRefCell.mk (0 : Nat) BorrowState.exclusive)).1

/-- C5 (code evaluated at the failing input): after `new(5)`, one successful
`borrow` and the release of that guard, the state is back to `Free` and a
fresh `borrow_mut()` succeeds as the claim says — but `is_mutably_borrowed()`
returns `true`, not `false`, because of the inverted `is_some()` test. -/
theorem after_release_is_mutably_borrowed_still_true :
    (DOMRefCell.new (5 : Nat)).try_borrow =
      some (5, DOMRefCell.mk 5 (BorrowState.shared 1)) ∧
    DOMRefCell.releaseShared (DOMRefCell.mk (5 : Nat) (BorrowState.shared 1)) =
      DOMRefCell.mk 5 BorrowState.free ∧
    (DOMRefCell.mk (5 : Nat) BorrowState.free).is_mutably_borrowed = true ∧
    (DOMRefCell.mk (5 : Nat) BorrowState.free).borrow_mut =
      Except.ok (5, DOMRefCell.mk 5 BorrowState.exclusive) :=
  ⟨rfl, rfl, rfl, rfl⟩

/-- C6: the tracker realizes exactly the spec state machine (each listed
transition holds, and the conflicting inputs are refused), and the concrete
scenario: three shared borrows then two releases leave exactly one shared
guard live, and releasing the last returns the state to `Free`. -/
theorem tracker_state_machine :
    tryBorrowState BorrowState.free = some (BorrowState.shared 1) ∧
    (∀ n : Nat, 1 ≤ n →
      tryBorrowState (BorrowState.shared n) =
        some (BorrowState.shared (n + 1))) ∧
    releaseSharedState (BorrowState.shared 1) = BorrowState.free ∧
    (∀ n : Nat, 1 < n →
      releaseSharedState (BorrowState.shared n) =
        BorrowState.shared (n - 1)) ∧
    tryBorrowMutState BorrowState.free = some BorrowState.exclusive ∧
    releaseExclusiveState BorrowState.exclusive = BorrowState.free ∧
    tryBorrowState BorrowState.exclusive = none ∧
    (∀ n : Nat, tryBorrowMutState (BorrowState.shared n) = none) ∧
    tryBorrowMutState BorrowState.exclusive = none ∧
    (runOps [Op.opBorrow, Op.opBorrow, Op.opBorrow, Op.opReleaseShared,
        Op.opReleaseShared]).st = BorrowState.shared 1 ∧
    (runOps [Op.opBorrow, Op.opBorrow, Op.opBorrow, Op.opReleaseShared,
        Op.opReleaseShared]).liveShared = 1 ∧
    (runOps [Op.opBorrow, Op.opBorrow, Op.opBorrow, Op.opReleaseShared,
        Op.opReleaseShared, Op.opReleaseShared]).st = BorrowState.free := by
  refine ⟨rfl, ?_, rfl, ?_, rfl, rfl, rfl, ?_, rfl, ?_, ?_, ?_⟩
  · intro n hn
    rfl
  · intro n hn
    rcases n with _ | _ | m
    · omega
    · omega
    · rfl
  · intro n
    rfl
  · decide
  · decide
  · decide

/-- Witness for C6: the quantified transitions applied at concrete counts. -/
theorem tracker_state_machine_witness :
    tryBorrowState (BorrowState.shared 2) = some (BorrowState.shared 3) ∧
    releaseSharedState (BorrowState.shared 3) = BorrowState.shared 2 :=
  ⟨tracker_state_machine.2.1 2 (by decide),
    tracker_state_machine.2.2.2.1 3 (by decide)⟩

/-- C7: each bypass accessor returns the contained value and leaves the
tracker state identical to the state immediately before the call; being
total functions on every state (no `Option`, no error outcome), none of
them can fail at the tracker level. -/
theorem bypass_accessors_preserve_state {α : Type} (c : DOMRefCell α) :
    c.borrow_for_layout.2.state = c.state ∧
    c.borrow_for_layout.1 = c.value ∧
    c.borrow_for_gc_trace.2.state = c.state ∧
    c.borrow_for_gc_trace.1 = c.value ∧
    c.borrow_for_script_deallocation.2.state = c.state ∧
    c.borrow_for_script_deallocation.1 = c.value :=
  ⟨rfl, rfl, rfl, rfl, rfl, rfl⟩

/-- Witness for C7: state preservation at a concrete exclusively borrowed
cell. -/
theorem bypass_accessors_preserve_state_witness :
    (DOMRefCell.mk (7 : Nat)
        BorrowState.exclusive).borrow_for_layout.2.state =
      (DOMRefCell.mk (7 : Nat) BorrowState.exclusive).state :=
  (bypass_accessors_preserve_state
    (DOMRefCell.mk (7 : Nat) BorrowState.exclusive)).1

/-- C8: the trace entry point goes through the checked `borrow()` (not a
bypass accessor): it equals mapping the trace capability over `borrow`, so
it forwards the trace through the shared guard when the state permits and
fails fast with the borrow conflict exactly when the cell is exclusively
borrowed. -/
theorem trace_uses_checked_shared_borrow {α β : Type} (tr : α → β)
    (c : DOMRefCell α) :
    DOMRefCell.trace tr c = Except.map (fun p => tr p.1) c.borrow ∧
    (c.state = BorrowState.exclusive →
      DOMRefCell.trace tr c = Except.error BorrowError.borrowConflict) ∧
    (c.state ≠ BorrowState.exclusive →
      DOMRefCell.trace tr c = Except.ok (tr c.value)) := by
  obtain ⟨v, s⟩ := c
  cases s <;>
    simp [DOMRefCell.trace, DOMRefCell.borrow, DOMRefCell.try_borrow,
      tryBorrowState, Except.map]

/-- Witness for C8: tracing an exclusively borrowed concrete cell fails
fast. -/
theorem trace_uses_checked_shared_borrow_witness :
    DOMRefCell.trace (fun v : Nat => v + 1)
        (DOMRefCell.mk 5 BorrowState.exclusive) =
      Except.error BorrowError.borrowConflict :=
  (trace_uses_checked_shared_borrow (fun v : Nat => v + 1)
    (DOMRefCell.mk 5 BorrowState.exclusive)).2.1 rfl

/-- C9: the concrete scenario — `new(5)`; `borrow()` yields a guard
observing `5` (state `Shared(1)`); while it is live `borrow_mut()` fails
fast; after release, `borrow_mut()` succeeds and the value is set to `6`
through the guard; after that guard is released, `borrow()` yields `6`. -/
theorem scenario_new5_read_write6 :
    (DOMRefCell.new (5 : Nat)).borrow =
      Except.ok (5, DOMRefCell.mk 5 (BorrowState.shared 1)) ∧
    (DOMRefCell.mk (5 : Nat) (BorrowState.shared 1)).borrow_mut =
      Except.error BorrowError.borrowConflict ∧
    DOMRefCell.releaseShared (DOMRefCell.mk (5 : Nat) (BorrowState.shared 1)) =
      DOMRefCell.mk 5 BorrowState.free ∧
    (DOMRefCell.mk (5 : Nat) BorrowState.free).borrow_mut =
      Except.ok (5, DOMRefCell.mk 5 BorrowState.exclusive) ∧
    DOMRefCell.write_via_guard
        (DOMRefCell.mk (5 : Nat) BorrowState.exclusive) 6 =
      DOMRefCell.mk 6 BorrowState.exclusive ∧
    DOMRefCell.releaseExclusive
        (DOMRefCell.mk (6 : Nat) BorrowState.exclusive) =
      DOMRefCell.mk 6 BorrowState.free ∧
    (DOMRefCell.mk (6 : Nat) BorrowState.free).borrow =
      Except.ok (6, DOMRefCell.mk 6 (BorrowState.shared 1)) :=
  ⟨rfl, rfl, rfl, rfl, rfl, rfl, rfl⟩

/-- C10: the debug-time precondition of the GC-trace bypass accessor holds
exactly when the caller task state carries both the `SCRIPT` flag and the
`IN_GC` flag — a script-thread caller during a collection pause; any other
flag combination fails the assertion. -/
theorem gc_trace_assert_needs_script_and_in_gc (ts : TaskState) :
    gcTraceAssert ts = (ts.script && ts.in_gc) := by
  obtain ⟨s, l, g⟩ := ts
  cases s <;> cases l <;> cases g <;> rfl

/-- Witness for C10: the assertion holds for a script-during-GC task state. -/
theorem gc_trace_assert_needs_script_and_in_gc_witness :
    gcTraceAssert (TaskState.mk true false true) =
      ((TaskState.mk true false true).script &&
        (TaskState.mk true false true).in_gc) :=
  gc_trace_assert_needs_script_and_in_gc (TaskState.mk true false true)
